import Mathlib

/-!
Shallow embedding of the RPiCameraPlugin control script
(src/Python/rpicamera/controller.py): the ZmqThread request/reply serving
loop and the Controller state machine it drives.

Conventions of the embedding:
* Python floats are modelled as rationals.
* Python exceptions are modelled with the PyErr type; a function that can
  raise returns an Except PyErr result.  An Except.error outcome of one
  loop iteration means the exception escapes ZmqThread.run and the serving
  thread dies without replying.
* Side effects on the camera hardware and the wire are recorded as an
  Event trace; the filesystem is an explicit FS value with fault-injection
  flags so that I/O errors of os.makedirs and open/write can be studied.
* The camera object (CameraGPIO, defined in rpicamera/camera.py, which is
  not among the provided sources) is modelled from the spec: a record of
  the capability interface of section 6 whose operations are plain state
  updates of the corresponding fields and flags.
-/

/-- Kinds of Python exceptions raised by the embedded code. -/
inductive PyErr where
  | indexError
  | valueError
  | typeError
  | attributeError
  | nameError
  | ioError
  deriving DecidableEq, Repr

/-- Observable side effects: wire replies and Device (camera) operations. -/
inductive Event where
  | sent (reply : String)
  | devStartRecording (video_path : String) (quality : Nat)
  | devStopRecording
  | devStartPreview
  | devStopPreview
  | devClose
  | sleep (seconds : ℚ)
  deriving DecidableEq, Repr

/-- Python values passed through the parameter_callback interface. -/
inductive PValue where
  | pynone
  | pyint (n : Int)
  | pyfloat (q : ℚ)
  | pybool (b : Bool)
  | pypair (a b : Int)
  | pylist (qs : List ℚ)
  deriving DecidableEq, Repr

/-- A camera resolution, width times height. -/
structure Resolution where
  width : Int
  height : Int
  deriving DecidableEq, Repr

/-- Modelled from the spec: the Device capability interface of section 6
(the CameraGPIO class of rpicamera/camera.py is not among the provided
sources).  Attribute reads and writes are field accesses; startPreview,
stopPreview, startRecording, stopRecording and close toggle the
previewing, recording and closed flags. -/
structure Camera where
  framerate : ℚ
  resolution : Resolution
  vflip : Bool
  hflip : Bool
  zoom : List ℚ
  awb_mode : String
  awb_gains : List ℚ
  exposure_mode : String
  shutter_speed : ℚ
  exposure_speed : ℚ
  brightness : Int
  sync_mode : Bool
  wait_for_trigger : Bool
  trigger_timeout : ℚ
  recording : Bool
  previewing : Bool
  closed : Bool
  deriving DecidableEq, Repr

/-- The parameter dictionary written to the _params.json file at the start
of a recording. -/
structure RecParams where
  rec_path : String
  experiment : Int
  recording : Int
  video_path : String
  width : Int
  height : Int
  framerate : ℚ
  sync_mode : Bool
  wait_for_trigger : Bool
  trigger_timeout : ℚ
  awb_mode : String
  awb_gains : List ℚ
  brightness : Int
  zoom : List ℚ
  vflip : Bool
  hflip : Bool
  deriving DecidableEq, Repr

/-- The filesystem seen by the controller: existing directories, written
parameter files, and fault-injection predicates telling which paths make
os.makedirs or open/write raise an I/O error. -/
structure FS where
  dirs : List String
  files : List (String × RecParams)
  mkdirFail : String → Bool
  writeFail : String → Bool

/-- os.path.exists, restricted to the directories this program creates. -/
def FS.exists (fs : FS) (p : String) : Bool :=
  fs.dirs.contains p

/-- The Controller of controller.py: a base data path, a closed flag and
an optional camera (None when construction of the camera failed). -/
structure Controller where
  data_path : String
  closed : Bool
  camera : Option Camera
  deriving Repr

/-- Tokenizer of Python str.split with no argument: scan the character
list, accumulating the current token in reverse, dropping empty tokens.
Structural recursion so that concrete requests evaluate by reduction. -/
def splitWsAux : List Char → List Char → List String
  | [], [] => []
  | [], acc => [String.mk acc.reverse]
  | c :: cs, acc =>
    if c.isWhitespace then
      match acc with
      | [] => splitWsAux cs []
      | _ => String.mk acc.reverse :: splitWsAux cs []
    else splitWsAux cs (c :: acc)

/-- Python str.split with no argument: split on whitespace, dropping
empty tokens. -/
def pySplitWs (s : String) : List String :=
  splitWsAux s.data []

/-- Python str.split with a one-character separator, on character lists:
keeps empty pieces, and the empty input yields one empty piece. -/
def splitOnCharAux (sep : Char) : List Char → List Char → List (List Char)
  | [], acc => [acc.reverse]
  | c :: cs, acc =>
    if c = sep then acc.reverse :: splitOnCharAux sep cs []
    else splitOnCharAux sep cs (c :: acc)

/-- Python str.split with a one-character separator. -/
def pySplitOnChar (sep : Char) (s : String) : List String :=
  (splitOnCharAux sep s.data []).map String.mk

/-- Python str.strip: drop leading and trailing whitespace. -/
def pyStrip (s : String) : String :=
  String.mk (((s.data.dropWhile Char.isWhitespace).reverse.dropWhile Char.isWhitespace).reverse)

/-- Python sequence indexing xs[i]: IndexError when out of range. -/
def pyIdx {α : Type} (xs : List α) (i : Nat) : Except PyErr α :=
  match xs.get? i with
  | some x => Except.ok x
  | none => Except.error PyErr.indexError

/-- Python tuple unpacking of p.split on the separator "=" into exactly
two names: ValueError unless the token holds exactly one separator. -/
def splitEq (p : String) : Except PyErr (String × String) :=
  match pySplitOnChar (Char.ofNat 61) p with
  | [a, b] => Except.ok (a, b)
  | _ => Except.error PyErr.valueError

/-- Digit-string to Nat; none when a character is not a digit.  The empty
list yields some 0 and callers guard against emptiness themselves. -/
def parseNatDigits (cs : List Char) : Option Nat :=
  cs.foldl (fun acc c =>
    match acc with
    | none => none
    | some n => if c.isDigit then some (n * 10 + (c.toNat - 48)) else none)
    (some 0)

/-- Signed-integer parsing on a stripped character list. -/
def pyIntCore (cs : List Char) : Option Int :=
  match cs with
  | [] => none
  | c :: rest =>
    if c = Char.ofNat 45 then
      match rest with
      | [] => none
      | _ => (parseNatDigits rest).map (fun n => -(n : Int))
    else if c = Char.ofNat 43 then
      match rest with
      | [] => none
      | _ => (parseNatDigits rest).map (fun n => (n : Int))
    else (parseNatDigits cs).map (fun n => (n : Int))

/-- Python int(s): strip whitespace, parse an optionally signed integer,
ValueError on anything else. -/
def pyInt (s : String) : Except PyErr Int :=
  match pyIntCore (pyStrip s).data with
  | some n => Except.ok n
  | none => Except.error PyErr.valueError

/-- Decimal-notation part of Python float(s) (exponents are not needed by
the protocol), as a rational. -/
def pyFloatCore (s : String) : Option ℚ :=
  let cs := (pyStrip s).data
  let sb : ℚ × List Char :=
    match cs with
    | c :: rest =>
      if c = Char.ofNat 45 then (-1, rest)
      else if c = Char.ofNat 43 then (1, rest)
      else (1, cs)
    | [] => (1, [])
  match splitOnCharAux (Char.ofNat 46) sb.2 [] with
  | [ip] =>
    match ip with
    | [] => none
    | _ => (parseNatDigits ip).map (fun n => sb.1 * (n : ℚ))
  | [ip, fp] =>
    match ip, fp with
    | [], [] => none
    | _, _ =>
      match parseNatDigits ip, parseNatDigits fp with
      | some i, some f => some (sb.1 * ((i : ℚ) + (f : ℚ) / ((10 : ℚ) ^ fp.length)))
      | _, _ => none
  | _ => none

/-- Python float(s): ValueError when the token is not numeric. -/
def pyFloat (s : String) : Except PyErr ℚ :=
  match pyFloatCore s with
  | some q => Except.ok q
  | none => Except.error PyErr.valueError

/-- Decimal digits of a natural number, by fuel so that concrete values
evaluate by reduction; the fuel is always taken as n + 1. -/
def natToDigits : Nat → Nat → List Char
  | 0, _ => []
  | fuel + 1, n =>
    if n < 10 then [Char.ofNat (48 + n)]
    else natToDigits fuel (n / 10) ++ [Char.ofNat (48 + n % 10)]

/-- Decimal representation of a natural number. -/
def natToString (n : Nat) : String :=
  String.mk (natToDigits (n + 1) n)

/-- The Python format of an integer. -/
def intToString (i : Int) : String :=
  if i < 0 then "-" ++ natToString i.natAbs else natToString i.natAbs

/-- Left-pad a natural number with zeros to six digits. -/
def padZeros6 (n : Nat) : String :=
  let s := natToString n
  String.mk (List.replicate (6 - s.length) (Char.ofNat 48)) ++ s

/-- Fixed six-decimal formatting of a rational, as used for the GetGains
reply. -/
def format6 (q : ℚ) : String :=
  let scaled : Int := Rat.floor (q * 1000000 + 1 / 2)
  let sgn := if scaled < 0 then "-" else ""
  let m := scaled.natAbs
  sgn ++ natToString (m / 1000000) ++ "." ++ padZeros6 (m % 1000000)

/-- Python min over a list, with a junk value on the empty list (the code
only evaluates it behind a length guard). -/
def pyMin : List ℚ → ℚ
  | [] => 0
  | x :: xs => xs.foldl min x

/-- Python max over a list, with a junk value on the empty list. -/
def pyMax : List ℚ → ℚ
  | [] => 0
  | x :: xs => xs.foldl max x

/-- Python subscription v[i] of a callback result: TypeError on None,
IndexError past the end of a list. -/
def pySub (v : PValue) (i : Nat) : Except PyErr ℚ :=
  match v with
  | PValue.pylist qs =>
    match qs.get? i with
    | some q => Except.ok q
    | none => Except.error PyErr.indexError
  | _ => Except.error PyErr.typeError

/-- os.path.sep on the target platform. -/
def opSep : Char := Char.ofNat 47

/-- The last component of p.split(os.path.sep); str.split on an explicit
separator never returns an empty list. -/
def lastPathComponent (p : String) : String :=
  (pySplitOnChar opSep p).getLastD ""

/-- Whether a string starts with the path separator. -/
def startsWithSep (s : String) : Bool :=
  match s.data with
  | c :: _ => c = opSep
  | [] => false

/-- Whether a string ends with the path separator. -/
def endsWithSep (s : String) : Bool :=
  match s.data.getLast? with
  | some c => c = opSep
  | none => false

/-- os.path.join of two components (POSIX semantics for the cases this
program produces). -/
def opJoin (a b : String) : String :=
  if startsWithSep b then b
  else if a = "" then b
  else if endsWithSep a then a ++ b
  else a ++ "/" ++ b

/-- Controller.__init__: store the data path and try to build the camera;
a construction failure is caught (except BaseException) and leaves the
camera reference absent instead of raising. -/
def Controller.init (data_path : String) (cam : Except PyErr Camera) : Controller :=
  { data_path := data_path
    closed := false
    camera := match cam with
      | Except.ok c => some c
      | Except.error _ => none }

/-- The framerate property getter. -/
def Controller.framerate (c : Controller) : Option ℚ :=
  c.camera.map Camera.framerate

/-- The framerate property setter: applied only when a camera is present
and it is not recording. -/
def Controller.set_framerate (c : Controller) (fps : ℚ) : Controller :=
  match c.camera with
  | some cam =>
    if ¬ cam.recording then { c with camera := some { cam with framerate := fps } } else c
  | none => c

/-- The resolution property getter. -/
def Controller.resolution (c : Controller) : Option Resolution :=
  c.camera.map Camera.resolution

/-- The resolution property setter: applied only when a camera is present
and it is not recording. -/
def Controller.set_resolution (c : Controller) (xy : Int × Int) : Controller :=
  match c.camera with
  | some cam =>
    if ¬ cam.recording then
      { c with camera := some { cam with resolution := ⟨xy.1, xy.2⟩ } }
    else c
  | none => c

/-- The vflip property getter. -/
def Controller.vflip (c : Controller) : Option Bool :=
  c.camera.map Camera.vflip

/-- The vflip property setter: applied only when a camera is present and
it is not recording. -/
def Controller.set_vflip (c : Controller) (status : Bool) : Controller :=
  match c.camera with
  | some cam =>
    if ¬ cam.recording then { c with camera := some { cam with vflip := status } } else c
  | none => c

/-- The hflip property getter. -/
def Controller.hflip (c : Controller) : Option Bool :=
  c.camera.map Camera.hflip

/-- The hflip property setter: applied only when a camera is present and
it is not recording. -/
def Controller.set_hflip (c : Controller) (status : Bool) : Controller :=
  match c.camera with
  | some cam =>
    if ¬ cam.recording then { c with camera := some { cam with hflip := status } } else c
  | none => c

/-- The zoom property getter. -/
def Controller.zoom (c : Controller) : Option (List ℚ) :=
  c.camera.map Camera.zoom

/-- The zoom property setter: applied only when a camera is present and
the coordinate list has length four with minimum at least 0 and maximum
at most 1. -/
def Controller.set_zoom (c : Controller) (coords : List ℚ) : Controller :=
  match c.camera with
  | some cam =>
    if coords.length = 4 ∧ 0 ≤ pyMin coords ∧ pyMax coords ≤ 1 then
      { c with camera := some { cam with zoom := coords } }
    else c
  | none => c

/-- The is_recording property. -/
def Controller.is_recording (c : Controller) : Bool :=
  match c.camera with
  | some cam => cam.recording
  | none => false

/-- Controller.cleanup: stop recording and preview when active, close the
camera when still open, drop the camera reference and mark the controller
closed. -/
def Controller.cleanup (c : Controller) : List Event × Controller :=
  match c.camera with
  | none => ([], { c with closed := true })
  | some cam =>
    let ev1 := if cam.recording then [Event.devStopRecording] else []
    let ev2 := if cam.previewing then [Event.devStopPreview] else []
    let ev3 := if ¬ cam.closed then [Event.devClose] else []
    (ev1 ++ ev2 ++ ev3, { c with camera := none, closed := true })

/-- Controller.start_preview: with a camera present it configures the
white-balance and exposure modes and then evaluates the undefined local
name kwargs at the camera.start_preview call site, raising a NameError
before the Device preview is ever started.  Without a camera it is a
no-op. -/
def Controller.start_preview (c : Controller) (warmup_time : ℚ)
    (awb_gains : Option (List ℚ)) (fix_awb_gains fix_exposure_speed : Bool) :
    List Event × Controller × Except PyErr Unit :=
  match c.camera with
  | none => ([], c, Except.ok ())
  | some cam =>
    let cam1 :=
      match awb_gains with
      | some g => { cam with awb_mode := "off", awb_gains := g }
      | none => { cam with awb_mode := "auto" }
    let cam2 := { cam1 with exposure_mode := "auto" }
    ([], { c with camera := some cam2 }, Except.error PyErr.nameError)

/-- Controller.reset_gains: stop an active recording, stop an active
preview with a short settle delay, and restart the preview (through
start_preview) when one was active before. -/
def Controller.reset_gains (c : Controller) (warmup_time : ℚ)
    (awb_gains : Option (List ℚ)) (fix_awb_gains fix_exposure_speed : Bool) :
    List Event × Controller × Except PyErr Unit :=
  match c.camera with
  | none => ([], c, Except.ok ())
  | some cam =>
    let ev1 := if cam.recording then [Event.devStopRecording] else []
    let cam1 := if cam.recording then { cam with recording := false } else cam
    let was_previewing := cam1.previewing
    let ev2 := if cam1.previewing then [Event.devStopPreview, Event.sleep (1 / 10)] else []
    let cam2 := if cam1.previewing then { cam1 with previewing := false } else cam1
    if was_previewing then
      let (ev3, c3, r) :=
        Controller.start_preview { c with camera := some cam2 }
          warmup_time awb_gains fix_awb_gains fix_exposure_speed
      (ev1 ++ ev2 ++ ev3, c3, r)
    else
      (ev1 ++ ev2, { c with camera := some cam2 }, Except.ok ())

/-- Controller.get_gains: the list of white-balance gains, absent when no
camera is available. -/
def Controller.get_gains (c : Controller) : Option (List ℚ) :=
  match c.camera with
  | some cam => some cam.awb_gains
  | none => none

/-- Controller.set_gains: force the white-balance mode off and apply the
new gains; no-op without a camera. -/
def Controller.set_gains (c : Controller) (gains : List ℚ) : Controller :=
  match c.camera with
  | some cam => { c with camera := some { cam with awb_mode := "off", awb_gains := gains } }
  | none => c

/-- Controller.start_recording: guarded on a present, non-recording
camera; derives the recording directory from the last path component of
the supplied path and the experiment and recording ids, creates it when
absent, writes the parameter file and starts the Device recording.  A
path of None raises an AttributeError at the path.split call; makedirs
and the parameter-file write raise I/O errors according to the
fault-injection flags of the filesystem. -/
def Controller.start_recording (c : Controller) (fs : FS) (filename : String)
    (experiment recording : Int) (path : Option String) (quality : Nat) :
    List Event × Controller × FS × Except PyErr (Option String) :=
  match c.camera with
  | none => ([], c, fs, Except.ok none)
  | some cam =>
    if cam.recording then ([], c, fs, Except.ok none)
    else
      match path with
      | none => ([], c, fs, Except.error PyErr.attributeError)
      | some p =>
        let rec_datetime := lastPathComponent p
        let name := rec_datetime ++ "_experiment_" ++ intToString experiment ++
          "_recording_" ++ intToString recording
        let rec_path := opJoin c.data_path name
        if ¬ fs.exists rec_path ∧ fs.mkdirFail rec_path then
          ([], c, fs, Except.error PyErr.ioError)
        else
          let fs1 := if fs.exists rec_path then fs else { fs with dirs := rec_path :: fs.dirs }
          let file_base := opJoin rec_path filename
          let video_path := file_base ++ ".h264"
          let param_file := file_base ++ "_params.json"
          let params : RecParams :=
            { rec_path := rec_path
              experiment := experiment
              recording := recording
              video_path := video_path
              width := cam.resolution.width
              height := cam.resolution.height
              framerate := cam.framerate
              sync_mode := cam.sync_mode
              wait_for_trigger := cam.wait_for_trigger
              trigger_timeout := cam.trigger_timeout
              awb_mode := cam.awb_mode
              awb_gains := cam.awb_gains
              brightness := cam.brightness
              zoom := cam.zoom
              vflip := cam.vflip
              hflip := cam.hflip }
          if fs1.writeFail param_file then
            ([], c, fs1, Except.error PyErr.ioError)
          else
            let fs2 := { fs1 with files := (param_file, params) :: fs1.files }
            ([Event.devStartRecording video_path quality],
              { c with camera := some { cam with recording := true } },
              fs2, Except.ok (some rec_path))

/-- Controller.stop_recording: stop the Device recording when one is
active, otherwise a no-op. -/
def Controller.stop_recording (c : Controller) : List Event × Controller :=
  match c.camera with
  | some cam =>
    if cam.recording then
      ([Event.devStopRecording], { c with camera := some { cam with recording := false } })
    else ([], c)
  | none => ([], c)

/-- Controller.close: cleanup under its wire-facing name. -/
def Controller.close (c : Controller) : List Event × Controller :=
  Controller.cleanup c

/-- The whole system state driven by the serving loop: the controller and
the filesystem. -/
structure Sys where
  controller : Controller
  fs : FS

/-- Modelled from the spec: the bootstrap code that passes the ZmqThread
callbacks is not among the provided sources; per sections 2 and 4.1 the
Start command dispatches to Controller.start_recording with the parsed
experiment and recording ids and path and the default filename and
quality. -/
def sysStart (s : Sys) (experiment recording : Int) (path : Option String) :
    List Event × Sys × Except PyErr (Option String) :=
  let (ev, c1, fs1, res) :=
    Controller.start_recording s.controller s.fs "rpicamera_video" experiment recording path 25
  (ev, { controller := c1, fs := fs1 }, res)

/-- Modelled from the spec: the bootstrap code that passes the ZmqThread
parameter_callback is not among the provided sources; per sections 2, 4.1
and 4.2 each parameter command name dispatches to the like-named
Controller operation (ResetGains with the default preview options). -/
def sysParam (s : Sys) (name : String) (v : PValue) :
    List Event × Sys × Except PyErr PValue :=
  if name = "Stop" then
    let (ev, c1) := Controller.stop_recording s.controller
    (ev, { s with controller := c1 }, Except.ok PValue.pynone)
  else if name = "Close" then
    let (ev, c1) := Controller.close s.controller
    (ev, { s with controller := c1 }, Except.ok PValue.pynone)
  else if name = "Resolution" then
    match v with
    | PValue.pypair w h =>
      (([] : List Event), { s with controller := Controller.set_resolution s.controller (w, h) },
        Except.ok PValue.pynone)
    | _ => ([], s, Except.error PyErr.typeError)
  else if name = "Framerate" then
    match v with
    | PValue.pyfloat q =>
      (([] : List Event), { s with controller := Controller.set_framerate s.controller q },
        Except.ok PValue.pynone)
    | _ => ([], s, Except.error PyErr.typeError)
  else if name = "ResetGains" then
    let (ev, c1, res) := Controller.reset_gains s.controller 2 none true true
    (ev, { s with controller := c1 }, res.map (fun _ => PValue.pynone))
  else if name = "GetGains" then
    match Controller.get_gains s.controller with
    | some gs => ([], s, Except.ok (PValue.pylist gs))
    | none => ([], s, Except.ok PValue.pynone)
  else if name = "SetGains" then
    match v with
    | PValue.pylist gs =>
      (([] : List Event), { s with controller := Controller.set_gains s.controller gs },
        Except.ok PValue.pynone)
    | _ => ([], s, Except.error PyErr.typeError)
  else if name = "VFlip" then
    match v with
    | PValue.pybool b =>
      (([] : List Event), { s with controller := Controller.set_vflip s.controller b },
        Except.ok PValue.pynone)
    | _ => ([], s, Except.error PyErr.typeError)
  else if name = "HFlip" then
    match v with
    | PValue.pybool b =>
      (([] : List Event), { s with controller := Controller.set_hflip s.controller b },
        Except.ok PValue.pynone)
    | _ => ([], s, Except.error PyErr.typeError)
  else if name = "Zoom" then
    match v with
    | PValue.pylist qs =>
      (([] : List Event), { s with controller := Controller.set_zoom s.controller qs },
        Except.ok PValue.pynone)
    | _ => ([], s, Except.error PyErr.typeError)
  else ([], s, Except.error PyErr.typeError)

/-- The per-token loop of the Start branch: split each token at the equal
sign and update the Experiment, Recording and Path values; unknown names
are ignored; a malformed token or a non-numeric id raises. -/
def parseStartArgs : List String → Int → Int → Option String →
    Except PyErr (Int × Int × Option String)
  | [], e, r, p => Except.ok (e, r, p)
  | t :: rest, e, r, p =>
    match splitEq t with
    | Except.error err => Except.error err
    | Except.ok (name, value) =>
      if name = "Experiment" then
        match pyInt value with
        | Except.error err => Except.error err
        | Except.ok n => parseStartArgs rest n r p
      else if name = "Recording" then
        match pyInt value with
        | Except.error err => Except.error err
        | Except.ok n => parseStartArgs rest e n p
      else if name = "Path" then parseStartArgs rest e r (some value)
      else parseStartArgs rest e r p

/-- The list comprehension of the Zoom branch: float over every token,
raising on the first non-numeric one. -/
def mapPyFloat : List String → Except PyErr (List ℚ)
  | [] => Except.ok []
  | t :: ts =>
    match pyFloat t with
    | Except.error e => Except.error e
    | Except.ok q =>
      match mapPyFloat ts with
      | Except.error e => Except.error e
      | Except.ok qs => Except.ok (q :: qs)

/-- Whether the loop keeps serving after an iteration or breaks. -/
inductive LoopCont where
  | next
  | stop
  deriving DecidableEq, Repr

/-- Sequence a fallible argument computation before the body of a branch:
an exception escapes the iteration with no events and no state change. -/
def withArg {α : Type} (s : Sys) (x : Except PyErr α)
    (k : α → List Event × Sys × Except PyErr LoopCont) :
    List Event × Sys × Except PyErr LoopCont :=
  match x with
  | Except.error e => ([], s, Except.error e)
  | Except.ok a => k a

/-- Run a callback and, when it returns normally, send the fixed reply of
the branch and continue the loop. -/
def sendAfter (r : List Event × Sys × Except PyErr PValue) (reply : String) :
    List Event × Sys × Except PyErr LoopCont :=
  match r with
  | (ev, s1, Except.error e) => (ev, s1, Except.error e)
  | (ev, s1, Except.ok _) => (ev ++ [Event.sent reply], s1, Except.ok LoopCont.next)

/-- One iteration of ZmqThread.run on an already tokenized request: the
dispatch over the command verb.  parts[0] raises an IndexError on an
empty request.  The result is the event trace of the iteration, the new
system state, and either the loop continuation or the exception that
escaped the iteration (killing the serving thread before any reply for
this request is sent, except in the ResetGains branch whose reply goes
out first). -/
def handleParts (s : Sys) (parts : List String) :
    List Event × Sys × Except PyErr LoopCont :=
  match parts with
  | [] => ([], s, Except.error PyErr.indexError)
  | cmd :: args =>
    if cmd = "Start" then
      withArg s (parseStartArgs args 0 1 none) fun er =>
        match sysStart s er.1 er.2.1 er.2.2 with
        | (ev, s1, Except.error e) => (ev, s1, Except.error e)
        | (ev, s1, Except.ok rec_path) =>
          (ev ++ [Event.sent (rec_path.getD "")], s1, Except.ok LoopCont.next)
    else if cmd = "Stop" then
      sendAfter (sysParam s "Stop" PValue.pynone) "Stopped"
    else if cmd = "Close" then
      match sysParam s "Close" PValue.pynone with
      | (ev, s1, Except.error e) => (ev, s1, Except.error e)
      | (ev, s1, Except.ok _) => (ev ++ [Event.sent "Closing"], s1, Except.ok LoopCont.stop)
    else if cmd = "Resolution" then
      withArg s (pyIdx args 0) fun t1 =>
      withArg s (pyInt t1) fun width =>
      withArg s (pyIdx args 1) fun t2 =>
      withArg s (pyInt t2) fun height =>
      sendAfter (sysParam s "Resolution" (PValue.pypair width height)) "Done"
    else if cmd = "Framerate" then
      withArg s (pyIdx args 0) fun t1 =>
      withArg s (pyFloat t1) fun fps =>
      sendAfter (sysParam s "Framerate" (PValue.pyfloat fps)) "Done"
    else if cmd = "ResetGains" then
      match sysParam s "ResetGains" PValue.pynone with
      | (ev, s1, Except.error e) =>
        (Event.sent "Done (but wait at least 2 seconds)" :: ev, s1, Except.error e)
      | (ev, s1, Except.ok _) =>
        (Event.sent "Done (but wait at least 2 seconds)" :: ev, s1, Except.ok LoopCont.next)
    else if cmd = "GetGains" then
      match sysParam s "GetGains" PValue.pynone with
      | (ev, s1, Except.error e) => (ev, s1, Except.error e)
      | (ev, s1, Except.ok gains) =>
        match pySub gains 0 with
        | Except.error e => (ev, s1, Except.error e)
        | Except.ok g0 =>
          match pySub gains 1 with
          | Except.error e => (ev, s1, Except.error e)
          | Except.ok g1 =>
            (ev ++ [Event.sent (format6 g0 ++ " " ++ format6 g1)], s1, Except.ok LoopCont.next)
    else if cmd = "SetGains" then
      withArg s (pyIdx args 0) fun t1 =>
      withArg s (pyFloat t1) fun g0 =>
      withArg s (pyIdx args 1) fun t2 =>
      withArg s (pyFloat t2) fun g1 =>
      sendAfter (sysParam s "SetGains" (PValue.pylist [g0, g1])) "Done"
    else if cmd = "VFlip" then
      withArg s (pyIdx args 0) fun t1 =>
      withArg s (pyInt t1) fun n =>
      sendAfter (sysParam s "VFlip" (PValue.pybool (decide (0 < n)))) "Done"
    else if cmd = "HFlip" then
      withArg s (pyIdx args 0) fun t1 =>
      withArg s (pyInt t1) fun n =>
      sendAfter (sysParam s "HFlip" (PValue.pybool (decide (0 < n)))) "Done"
    else if cmd = "Zoom" then
      withArg s (mapPyFloat args) fun qs =>
      sendAfter (sysParam s "Zoom" (PValue.pylist qs)) "Done"
    else
      ([Event.sent "Not handled"], s, Except.ok LoopCont.next)

/-- One iteration of ZmqThread.run on a raw request string: tokenize,
then dispatch. -/
def handleMsg (s : Sys) (msg : String) : List Event × Sys × Except PyErr LoopCont :=
  handleParts s (pySplitWs msg)

/-- The serving loop over a queue of incoming requests: iterate until the
queue is exhausted, a Close breaks the loop, or an exception escapes an
iteration and kills the thread; the result is the full event trace. -/
def runLoop : Sys → List String → List Event
  | _, [] => []
  | s, msg :: rest =>
    match handleMsg s msg with
    | (ev, _, Except.error _) => ev
    | (ev, _, Except.ok LoopCont.stop) => ev
    | (ev, s1, Except.ok LoopCont.next) => ev ++ runLoop s1 rest

/-- A camera in its idle state, used as a concrete test fixture. -/
def camIdle : Camera :=
  { framerate := 30
    resolution := ⟨640, 480⟩
    vflip := false
    hflip := false
    zoom := [0, 0, 1, 1]
    awb_mode := "auto"
    awb_gains := [3 / 2, 3 / 2]
    exposure_mode := "auto"
    shutter_speed := 0
    exposure_speed := 33
    brightness := 50
    sync_mode := false
    wait_for_trigger := false
    trigger_timeout := 10
    recording := false
    previewing := false
    closed := false }

/-- The idle camera with an active recording. -/
def camRec : Camera := { camIdle with recording := true }

/-- The idle camera with an active preview. -/
def camPrev : Camera := { camIdle with previewing := true }

/-- An empty filesystem on which every I/O operation succeeds. -/
def fsEmpty : FS :=
  { dirs := []
    files := []
    mkdirFail := fun _ => false
    writeFail := fun _ => false }

/-- A filesystem on which every directory creation raises an I/O error. -/
def fsBadDisk : FS := { fsEmpty with mkdirFail := fun _ => true }

/-- A controller with base path /rec and the idle camera. -/
def ctrlIdle : Controller := { data_path := "/rec", closed := false, camera := some camIdle }

/-- A controller whose camera is recording. -/
def ctrlRec : Controller := { ctrlIdle with camera := some camRec }

/-- A controller whose camera is previewing. -/
def ctrlPrev : Controller := { ctrlIdle with camera := some camPrev }

/-- The idle system. -/
def sysIdle : Sys := { controller := ctrlIdle, fs := fsEmpty }

/-- The system with an active recording. -/
def sysRec : Sys := { controller := ctrlRec, fs := fsEmpty }

/-- The idle system on the failing disk. -/
def sysBadDisk : Sys := { controller := ctrlIdle, fs := fsBadDisk }

theorem le_pyMin_iff (a x : ℚ) (xs : List ℚ) :
    a ≤ pyMin (x :: xs) ↔ ∀ y ∈ x :: xs, a ≤ y := by
  induction xs generalizing x with
  | nil => simp [pyMin]
  | cons y ys ih =>
    have h : pyMin (x :: y :: ys) = pyMin (min x y :: ys) := rfl
    rw [h, ih (min x y)]
    simp [List.forall_mem_cons, le_min_iff, and_assoc]

theorem pyMax_le_iff (a x : ℚ) (xs : List ℚ) :
    pyMax (x :: xs) ≤ a ↔ ∀ y ∈ x :: xs, y ≤ a := by
  induction xs generalizing x with
  | nil => simp [pyMax]
  | cons y ys ih =>
    have h : pyMax (x :: y :: ys) = pyMax (max x y :: ys) := rfl
    rw [h, ih (max x y)]
    simp [List.forall_mem_cons, max_le_iff, and_assoc]

theorem zoom_cond_iff (coords : List ℚ) :
    (coords.length = 4 ∧ 0 ≤ pyMin coords ∧ pyMax coords ≤ 1) ↔
      (coords.length = 4 ∧ ∀ x ∈ coords, 0 ≤ x ∧ x ≤ 1) := by
  cases coords with
  | nil => simp
  | cons x xs =>
    rw [le_pyMin_iff, pyMax_le_iff]
    constructor
    · rintro ⟨h4, hmin, hmax⟩
      exact ⟨h4, fun z hz => ⟨hmin z hz, hmax z hz⟩⟩
    · rintro ⟨h4, hall⟩
      exact ⟨h4, fun z hz => (hall z hz).1, fun z hz => (hall z hz).2⟩

/-- C1: the claim that every request, including one with malformed
arguments, receives exactly one reply is violated by the source: the
request string with a non-numeric height token where a numeric one is
expected raises a ValueError inside ZmqThread.run that is not caught, so
no reply event is produced for it and the serving loop terminates,
processing no further requests.  The same holds for the wrong-arity
request missing the height token, which raises an IndexError. -/
theorem malformed_request_no_reply_kills_loop :
    (∀ s : Sys, handleMsg s "Resolution 640 x" = ([], s, Except.error PyErr.valueError)) ∧
    (∀ s : Sys, ∀ rest, runLoop s ("Resolution 640 x" :: rest) = []) ∧
    (∀ s : Sys, handleMsg s "Resolution 640" = ([], s, Except.error PyErr.indexError)) ∧
    (∀ s : Sys, ∀ rest, runLoop s ("Resolution 640" :: rest) = []) :=
  ⟨fun _ => rfl, fun _ _ => rfl, fun _ => rfl, fun _ _ => rfl⟩

/-- C8: the claim that an I/O error during recording-directory creation
is recovered and reported through the Start reply as an empty-string path
is violated by the source: on a system whose disk makes os.makedirs
raise, the Start request lets the error escape ZmqThread.run, no reply
event at all is produced, and the serving loop terminates. -/
theorem start_io_error_no_reply_kills_loop :
    handleMsg sysBadDisk "Start Path=/data/x" = ([], sysBadDisk, Except.error PyErr.ioError) ∧
    (∀ rest, runLoop sysBadDisk ("Start Path=/data/x" :: rest) = []) :=
  ⟨rfl, fun _ => rfl⟩

/-- C3: while the camera is recording, the framerate, resolution, vflip
and hflip setters are no-ops: the whole controller, hence every Device
field, is unchanged. -/
theorem setters_noop_while_recording (c : Controller) (cam : Camera)
    (hc : c.camera = some cam) (hr : cam.recording = true) :
    (∀ fps, Controller.set_framerate c fps = c) ∧
    (∀ xy, Controller.set_resolution c xy = c) ∧
    (∀ b, Controller.set_vflip c b = c) ∧
    (∀ b, Controller.set_hflip c b = c) := by
  refine ⟨fun fps => ?_, fun xy => ?_, fun b => ?_, fun b => ?_⟩ <;>
    simp [Controller.set_framerate, Controller.set_resolution, Controller.set_vflip,
      Controller.set_hflip, hc, hr]

/-- Witness for C3 at a concrete recording controller. -/
theorem setters_noop_while_recording_witness :
    ctrlRec.camera = some camRec ∧ camRec.recording = true ∧
    Controller.set_framerate ctrlRec 60 = ctrlRec ∧
    Controller.set_resolution ctrlRec (1280, 720) = ctrlRec ∧
    Controller.set_vflip ctrlRec true = ctrlRec ∧
    Controller.set_hflip ctrlRec true = ctrlRec :=
  ⟨rfl, rfl,
    (setters_noop_while_recording ctrlRec camRec rfl rfl).1 60,
    (setters_noop_while_recording ctrlRec camRec rfl rfl).2.1 (1280, 720),
    (setters_noop_while_recording ctrlRec camRec rfl rfl).2.2.1 true,
    (setters_noop_while_recording ctrlRec camRec rfl rfl).2.2.2 true⟩

/-- C4: the zoom setter applies the new rectangle exactly when the
coordinate list has four elements, all in the unit interval; any other
list leaves the controller, in particular the zoom rectangle,
unchanged. -/
theorem zoom_applied_iff_in_bounds (c : Controller) (cam : Camera) (coords : List ℚ)
    (hc : c.camera = some cam) :
    ((coords.length = 4 ∧ ∀ x ∈ coords, 0 ≤ x ∧ x ≤ 1) →
      Controller.set_zoom c coords = { c with camera := some { cam with zoom := coords } }) ∧
    (¬ (coords.length = 4 ∧ ∀ x ∈ coords, 0 ≤ x ∧ x ≤ 1) →
      Controller.set_zoom c coords = c) := by
  constructor
  · intro h
    have hcond := (zoom_cond_iff coords).mpr h
    simp [Controller.set_zoom, hc, hcond]
  · intro h
    have hcond : ¬ (coords.length = 4 ∧ 0 ≤ pyMin coords ∧ pyMax coords ≤ 1) :=
      fun hx => h ((zoom_cond_iff coords).mp hx)
    simp [Controller.set_zoom, hc, hcond]

/-- Witness for C4: an in-range rectangle is applied, a list with an
out-of-range value and a list of wrong length are both ignored. -/
theorem zoom_applied_iff_in_bounds_witness :
    ctrlIdle.camera = some camIdle ∧
    Controller.set_zoom ctrlIdle [0, 0, 1, 1]
      = { ctrlIdle with camera := some { camIdle with zoom := [0, 0, 1, 1] } } ∧
    Controller.set_zoom ctrlIdle [0, 0, 2, 1] = ctrlIdle ∧
    Controller.set_zoom ctrlIdle [0, 0, 1] = ctrlIdle :=
  ⟨rfl,
    (zoom_applied_iff_in_bounds ctrlIdle camIdle [0, 0, 1, 1] rfl).1 (by decide),
    (zoom_applied_iff_in_bounds ctrlIdle camIdle [0, 0, 2, 1] rfl).2 (by decide),
    (zoom_applied_iff_in_bounds ctrlIdle camIdle [0, 0, 1] rfl).2 (by decide)⟩

/-- C5: a failed camera construction is caught by the initializer, which
returns a controller with an absent camera, and on any controller with an
absent camera every operation is a no-op or returns an absent value
instead of raising; in particular get_gains returns an absent value. -/
theorem unavailable_camera_degrades_to_noops (dp : String) (err : PyErr)
    (c : Controller) (hc : c.camera = none) :
    (Controller.init dp (Except.error err)).camera = none ∧
    Controller.framerate c = none ∧
    Controller.resolution c = none ∧
    Controller.vflip c = none ∧
    Controller.hflip c = none ∧
    Controller.zoom c = none ∧
    Controller.is_recording c = false ∧
    (∀ fps, Controller.set_framerate c fps = c) ∧
    (∀ xy, Controller.set_resolution c xy = c) ∧
    (∀ b, Controller.set_vflip c b = c) ∧
    (∀ b, Controller.set_hflip c b = c) ∧
    (∀ qs, Controller.set_zoom c qs = c) ∧
    (∀ w g fa fe, Controller.start_preview c w g fa fe = ([], c, Except.ok ())) ∧
    (∀ w g fa fe, Controller.reset_gains c w g fa fe = ([], c, Except.ok ())) ∧
    Controller.get_gains c = none ∧
    (∀ g, Controller.set_gains c g = c) ∧
    (∀ fs fn e r p q, Controller.start_recording c fs fn e r p q = ([], c, fs, Except.ok none)) ∧
    Controller.stop_recording c = ([], c) ∧
    Controller.cleanup c = ([], { c with closed := true }) := by
  refine ⟨rfl, ?_, ?_, ?_, ?_, ?_, ?_, ?_, ?_, ?_, ?_, ?_, ?_, ?_, ?_, ?_, ?_, ?_, ?_⟩ <;>
    simp [Controller.framerate, Controller.resolution, Controller.vflip, Controller.hflip,
      Controller.zoom, Controller.is_recording, Controller.set_framerate,
      Controller.set_resolution, Controller.set_vflip, Controller.set_hflip,
      Controller.set_zoom, Controller.start_preview, Controller.reset_gains,
      Controller.get_gains, Controller.set_gains, Controller.start_recording,
      Controller.stop_recording, Controller.cleanup, hc]

/-- Witness for C5 at a concretely failed construction. -/
theorem unavailable_camera_degrades_to_noops_witness :
    (Controller.init "/rec" (Except.error PyErr.ioError)).camera = none ∧
    Controller.get_gains (Controller.init "/rec" (Except.error PyErr.ioError)) = none ∧
    (Controller.init "/rec" (Except.error PyErr.ioError)).start_recording fsEmpty
        "rpicamera_video" 2 3 (some "/data/x") 25
      = ([], Controller.init "/rec" (Except.error PyErr.ioError), fsEmpty, Except.ok none) := by
  have h := unavailable_camera_degrades_to_noops "/rec" PyErr.ioError
    (Controller.init "/rec" (Except.error PyErr.ioError)) rfl
  exact ⟨h.1, h.2.2.2.2.2.2.2.2.2.2.2.2.2.2.1,
    h.2.2.2.2.2.2.2.2.2.2.2.2.2.2.2.2.1 fsEmpty "rpicamera_video" 2 3 (some "/data/x") 25⟩

/-- C9: with a camera present, start_preview raises a NameError at the
undefined local name kwargs before the Device preview start is reached
(no preview-start event is emitted), and consequently reset_gains raises
the same NameError whenever it attempts to restore a previously active
preview. -/
theorem start_preview_always_raises_nameerror (c : Controller) (cam : Camera)
    (hc : c.camera = some cam) (w : ℚ) (g : Option (List ℚ)) (fa fe : Bool) :
    ((Controller.start_preview c w g fa fe).2.2 = Except.error PyErr.nameError ∧
      Event.devStartPreview ∉ (Controller.start_preview c w g fa fe).1) ∧
    (cam.previewing = true →
      (Controller.reset_gains c w g fa fe).2.2 = Except.error PyErr.nameError) := by
  constructor
  · cases g <;> simp [Controller.start_preview, hc]
  · intro hp
    by_cases hrec : cam.recording <;>
      cases g <;>
      simp [Controller.reset_gains, Controller.start_preview, hc, hp, hrec]

/-- Witness for C9 at a concrete previewing controller. -/
theorem start_preview_always_raises_nameerror_witness :
    ctrlPrev.camera = some camPrev ∧ camPrev.previewing = true ∧
    (Controller.start_preview ctrlPrev 2 none true true).2.2 = Except.error PyErr.nameError ∧
    (Controller.reset_gains ctrlPrev 2 none true true).2.2 = Except.error PyErr.nameError :=
  ⟨rfl, rfl,
    ((start_preview_always_raises_nameerror ctrlPrev camPrev rfl 2 none true true).1).1,
    (start_preview_always_raises_nameerror ctrlPrev camPrev rfl 2 none true true).2 rfl⟩

/-- C2: while a recording is active, start_recording returns an absent
path and changes neither the controller nor the filesystem (no directory
created, no parameter file written), and the wire reply of any
well-parsed Start request is the empty string, with the loop
continuing. -/
theorem start_while_recording_is_ignored (s : Sys) (cam : Camera)
    (hc : s.controller.camera = some cam) (hr : cam.recording = true) :
    (∀ fname e r p q, Controller.start_recording s.controller s.fs fname e r p q
        = ([], s.controller, s.fs, Except.ok none)) ∧
    (∀ toks e r p, parseStartArgs toks 0 1 none = Except.ok (e, r, p) →
      handleParts s ("Start" :: toks) = ([Event.sent ""], s, Except.ok LoopCont.next)) := by
  have hsr : ∀ fname e r p q, Controller.start_recording s.controller s.fs fname e r p q
      = ([], s.controller, s.fs, Except.ok none) := by
    intro fname e r p q
    simp [Controller.start_recording, hc, hr]
  refine ⟨hsr, ?_⟩
  intro toks e r p hp
  have hss : sysStart s e r p = ([], s, Except.ok none) := by
    simp [sysStart, hsr]
  have hred : handleParts s ("Start" :: toks) =
      withArg s (parseStartArgs toks 0 1 none) (fun er =>
        match sysStart s er.1 er.2.1 er.2.2 with
        | (ev, s1, Except.error e) => (ev, s1, Except.error e)
        | (ev, s1, Except.ok rec_path) =>
          (ev ++ [Event.sent (rec_path.getD "")], s1, Except.ok LoopCont.next)) := rfl
  rw [hred, hp]
  simp [withArg, hss]

/-- Witness for C2 at a concrete recording system. -/
theorem start_while_recording_is_ignored_witness :
    sysRec.controller.camera = some camRec ∧ camRec.recording = true ∧
    Controller.start_recording sysRec.controller sysRec.fs "rpicamera_video" 2 3
        (some "/data/20240101_1200") 25
      = ([], sysRec.controller, sysRec.fs, Except.ok none) ∧
    parseStartArgs ["Experiment=2", "Recording=3", "Path=/data/20240101_1200"] 0 1 none
      = Except.ok (2, 3, some "/data/20240101_1200") ∧
    handleParts sysRec ["Start", "Experiment=2", "Recording=3", "Path=/data/20240101_1200"]
      = ([Event.sent ""], sysRec, Except.ok LoopCont.next) :=
  ⟨rfl, rfl,
    (start_while_recording_is_ignored sysRec camRec rfl rfl).1 "rpicamera_video" 2 3
      (some "/data/20240101_1200") 25,
    rfl,
    (start_while_recording_is_ignored sysRec camRec rfl rfl).2
      ["Experiment=2", "Recording=3", "Path=/data/20240101_1200"] 2 3
      (some "/data/20240101_1200") rfl⟩

/-- C7: the reply of the ResetGains branch is sent strictly before any of
the gain-reset work: the event trace of the iteration is the sent event
followed by the whole trace of the reset_gains operation (stop recording,
stop preview, settle delay, restart preview). -/
theorem resetgains_reply_precedes_work (s : Sys) :
    (handleMsg s "ResetGains").1 =
      Event.sent "Done (but wait at least 2 seconds)" ::
        (Controller.reset_gains s.controller 2 none true true).1 := by
  rcases hr : Controller.reset_gains s.controller 2 none true true with ⟨ev, c1, res⟩
  have hpar : sysParam s "ResetGains" PValue.pynone =
      (match Controller.reset_gains s.controller 2 none true true with
       | (ev, c1, res) => (ev, { s with controller := c1 },
           res.map (fun _ => PValue.pynone))) := rfl
  rw [hr] at hpar
  have hred : handleMsg s "ResetGains" =
      match sysParam s "ResetGains" PValue.pynone with
      | (ev, s1, Except.error e) =>
        (Event.sent "Done (but wait at least 2 seconds)" :: ev, s1, Except.error e)
      | (ev, s1, Except.ok _) =>
        (Event.sent "Done (but wait at least 2 seconds)" :: ev, s1, Except.ok LoopCont.next) := rfl
  rw [hred, hpar]
  rcases res with e | u <;> simp [Except.map]

/-- C10: a Start request whose tokens parse with no Path value, served
with a present, non-recording camera, raises an AttributeError inside
start_recording: the iteration produces no events (in particular no
reply) and the exception terminates the serving loop. -/
theorem start_without_path_kills_loop (s : Sys) (cam : Camera)
    (hc : s.controller.camera = some cam) (hr : cam.recording = false) :
    (∀ toks e r, parseStartArgs toks 0 1 none = Except.ok (e, r, none) →
      handleParts s ("Start" :: toks) = ([], s, Except.error PyErr.attributeError)) ∧
    (∀ rest, runLoop s ("Start" :: rest) = []) := by
  have key : ∀ toks e r, parseStartArgs toks 0 1 none = Except.ok (e, r, none) →
      handleParts s ("Start" :: toks) = ([], s, Except.error PyErr.attributeError) := by
    intro toks e r hp
    have hsr : Controller.start_recording s.controller s.fs "rpicamera_video" e r none 25
        = ([], s.controller, s.fs, Except.error PyErr.attributeError) := by
      simp [Controller.start_recording, hc, hr]
    have hss : sysStart s e r none = ([], s, Except.error PyErr.attributeError) := by
      simp [sysStart, hsr]
    have hred : handleParts s ("Start" :: toks) =
        withArg s (parseStartArgs toks 0 1 none) (fun er =>
          match sysStart s er.1 er.2.1 er.2.2 with
          | (ev, s1, Except.error e) => (ev, s1, Except.error e)
          | (ev, s1, Except.ok rec_path) =>
            (ev ++ [Event.sent (rec_path.getD "")], s1, Except.ok LoopCont.next)) := rfl
    rw [hred, hp]
    simp [withArg, hss]
  refine ⟨key, fun rest => ?_⟩
  have h0 := key [] 0 1 rfl
  have hmsg : handleMsg s "Start" = handleParts s ["Start"] := rfl
  simp [runLoop, hmsg, h0]

/-- Witness for C10 at a concrete idle system, also showing that a queued
second request is never served. -/
theorem start_without_path_kills_loop_witness :
    sysIdle.controller.camera = some camIdle ∧ camIdle.recording = false ∧
    parseStartArgs ["Experiment=2"] 0 1 none = Except.ok (2, 1, none) ∧
    handleParts sysIdle ["Start", "Experiment=2"]
      = ([], sysIdle, Except.error PyErr.attributeError) ∧
    runLoop sysIdle ["Start", "Stop"] = [] :=
  ⟨rfl, rfl, rfl,
    (start_without_path_kills_loop sysIdle camIdle rfl rfl).1 ["Experiment=2"] 2 1 rfl,
    (start_without_path_kills_loop sysIdle camIdle rfl rfl).2 ["Stop"]⟩

/-- C6: every successful start_recording call returns the recording
directory obtained by joining the base data path with the last path
component of the supplied path followed by the experiment and recording
ids, and writes the parameter file inside that directory with the same
experiment and recording ids. -/
theorem start_recording_directory_and_params
    (c : Controller) (fs : FS) (fname : String) (e r : Int) (p : Option String) (q : Nat)
    (ev : List Event) (c2 : Controller) (fs2 : FS) (rp : String)
    (h : Controller.start_recording c fs fname e r p q = (ev, c2, fs2, Except.ok (some rp))) :
    (∃ ps, p = some ps ∧
      rp = opJoin c.data_path
        (lastPathComponent ps ++ "_experiment_" ++ intToString e ++ "_recording_" ++ intToString r)) ∧
    (∃ pr : RecParams, (opJoin rp fname ++ "_params.json", pr) ∈ fs2.files ∧
      pr.experiment = e ∧ pr.recording = r) := by
  rcases hcam : c.camera with _ | cam
  · rw [Controller.start_recording.eq_def, hcam] at h
    simp at h
  · rw [Controller.start_recording.eq_def, hcam] at h
    by_cases hrec : cam.recording = true
    · simp [hrec] at h
    · rcases p with _ | ps
      · simp [hrec] at h
      · simp only [hrec, Bool.not_eq_true, Bool.false_eq_true, if_false, ite_false] at h
        split_ifs at h
        · simp at h
        · simp at h
        · simp only [Prod.mk.injEq, Except.ok.injEq, Option.some.injEq] at h
          obtain ⟨hev, hc2, hfs2, hrp⟩ := h
          subst hrp
          subst hfs2
          exact ⟨⟨ps, rfl, rfl⟩, ⟨_, List.mem_cons_self _ _, rfl, rfl⟩⟩
        · simp at h
        · simp only [Prod.mk.injEq, Except.ok.injEq, Option.some.injEq] at h
          obtain ⟨hev, hc2, hfs2, hrp⟩ := h
          subst hrp
          subst hfs2
          exact ⟨⟨ps, rfl, rfl⟩, ⟨_, List.mem_cons_self _ _, rfl, rfl⟩⟩

/-- Witness for C6 at the concrete scenario of the spec: base path /rec,
path /data/20240101_1200, experiment 2, recording 3. -/
theorem start_recording_directory_and_params_witness :
    (∃ ps, (some "/data/20240101_1200" : Option String) = some ps ∧
      "/rec/20240101_1200_experiment_2_recording_3" = opJoin ctrlIdle.data_path
        (lastPathComponent ps ++ "_experiment_" ++ intToString (2 : Int) ++ "_recording_"
          ++ intToString (3 : Int))) ∧
    (∃ pr : RecParams,
      (opJoin "/rec/20240101_1200_experiment_2_recording_3" "rpicamera_video" ++ "_params.json", pr)
          ∈ (Controller.start_recording ctrlIdle fsEmpty "rpicamera_video" 2 3
              (some "/data/20240101_1200") 25).2.2.1.files ∧
      pr.experiment = 2 ∧ pr.recording = 3) :=
  start_recording_directory_and_params ctrlIdle fsEmpty "rpicamera_video" 2 3
    (some "/data/20240101_1200") 25
    (Controller.start_recording ctrlIdle fsEmpty "rpicamera_video" 2 3
      (some "/data/20240101_1200") 25).1
    (Controller.start_recording ctrlIdle fsEmpty "rpicamera_video" 2 3
      (some "/data/20240101_1200") 25).2.1
    (Controller.start_recording ctrlIdle fsEmpty "rpicamera_video" 2 3
      (some "/data/20240101_1200") 25).2.2.1
    "/rec/20240101_1200_experiment_2_recording_3" rfl
